import Mathlib

/-!
Shallow embedding of the Shadow-Bind notification dispatch/batching core:
`src/lib/notifications/service.js` (class `NotificationsService`) and its
companion service worker `src/public/sw-notifications.js`.

Modelling conventions:
* JavaScript strings stay `String`; `category` and `priority` are strings
  (the source compares them with `===` against the enumerated literals, and
  arbitrary strings can be passed in).
* A possibly-absent object field is `Option String`; JavaScript truthiness
  of such a field (`undefined`, `null` and `""` are falsy) is `truthy`.
* The current wall clock enters only through `new Date().getHours()` and
  `Date.now()`; both are passed explicitly in an `Env` record.
* `async`/`await` sequencing is irrelevant here (every awaited call in the
  modelled paths is deterministic), so methods become pure state-passing
  functions.  A method that fires notifications returns the list of
  notifications handed to the delivery boundary
  (`sendImmediateNotification` posts exactly its argument).
* `generateNotificationId` (wall clock + `Math.random`) and Firestore
  placeholder writes (`saveNotificationHistory`, `markAsRead`, console
  logging) have no effect on any modelled field and are omitted; the
  summary notification's `data.notifications` id list and `data.count`
  are likewise metadata built from those ids and are represented by the
  `dataType = "summary"` marker only.
-/

namespace ShadowBind

/-- JavaScript truthiness of a possibly missing string field:
`undefined` and the empty string are falsy. -/
def truthy (o : Option String) : Bool :=
  match o with
  | some s => !(s == "")
  | none => false

/-- Value of a possibly missing string field when spliced into a template
literal: an absent field prints as "undefined". -/
def jsStr (o : Option String) : String :=
  match o with
  | some s => s
  | none => "undefined"

/-- JavaScript `o || d` on a possibly missing string field. -/
def jsOr (o : Option String) (d : String) : String :=
  match o with
  | some s => if s == "" then d else s
  | none => d

/-- Environment values read from the wall clock. -/
structure Env where
  hour : Nat := 0
  now : Nat := 0

/-- Opaque payload forwarded to the click router (`data` of a notification
request; fields used by the source: `groupId`, `chatId`, `messageId`,
`url`). -/
structure Payload where
  groupId : Option String := none
  chatId : Option String := none
  messageId : Option String := none
  url : Option String := none

/-- One entry of a notification's `actions` array. -/
structure NotifAction where
  action : String := ""
  title : String := ""
  deriving DecidableEq

/-- Input of `NotificationsService.sendNotification`; the defaults mirror
the destructuring defaults at service.js:177-186. -/
structure NotificationData where
  title : String
  body : String
  category : String := "message"
  priority : String := "normal"
  data : Payload := {}
  actions : List NotifAction := []
  image : Option String := none
  userId : Option String := none

/-- The `options` object built at service.js:205-218 (single) and
service.js:376-385 (summary).  `options.data` is the request payload merged
with `category`/`priority` (single) or the `type: 'summary'` record
(summary); the merge is kept field by field. -/
structure NotifOptions where
  body : String
  dataType : Option String := none
  dataPayload : Payload := {}
  dataCategory : Option String := none
  dataPriority : Option String := none
  actions : List NotifAction := []
  image : Option String := none
  tag : String
  renotify : Option Bool := none

/-- The notification object built by `sendNotification`
(service.js:194-219) and by `sendGroupedNotification`
(service.js:365-386); fields the summary object does not carry are `none`
or `[]` (absent in JavaScript). -/
structure Notification where
  title : String
  body : String
  category : String
  priority : String
  data : Payload := {}
  actions : List NotifAction := []
  image : Option String := none
  userId : Option String := none
  options : NotifOptions

/-- `doNotDisturbSchedule` of the preferences (service.js:633-636). -/
structure DndSchedule where
  start : Nat
  «end» : Nat

/-- `this.preferences` (service.js:623-637): `categories` is a lookup
object mapping a category string to an enabled flag (an absent key reads
as falsy). -/
structure Preferences where
  categories : Option (String → Bool) := none
  doNotDisturb : Bool := false
  doNotDisturbSchedule : Option DndSchedule := none

/-- Mutable instance state of `NotificationsService` (constructor,
service.js:65-72); `batchTimerSet` models whether `this.batchTimer` holds a
pending timer handle. -/
structure ServiceState where
  batchQueue : List Notification := []
  batchTimerSet : Bool := false
  notificationHistory : List Notification := []
  preferences : Option Preferences := none

/-- State right after construction (service.js:65-72): no preferences
loaded, empty queue and history. -/
def initialState : ServiceState := {}

/-- `NOTIFICATIONS_CONFIG.BATCH_SIZE` (service.js:48). -/
def BATCH_SIZE : Nat := 10

/-- The `categories` map installed by `loadPreferences` (service.js:624-631):
exactly the six enumerated categories, each mapped to `true`. -/
def defaultCategories : String → Bool := fun c =>
  c == "message" || c == "group_invite" || c == "mention" ||
  c == "file_share" || c == "system" || c == "security"

/-- The full preference record installed by `loadPreferences`
(service.js:623-637). -/
def defaultPreferences : Preferences :=
  { categories := some defaultCategories
    doNotDisturb := false
    doNotDisturbSchedule := some { start := 22, «end» := 8 } }

/-- `isDoNotDisturbTime` (service.js:542-556), with the current hour made
explicit. -/
def isDoNotDisturbTime (p : Preferences) (hour : Nat) : Bool :=
  match p.doNotDisturbSchedule with
  | none => false
  | some s =>
    if s.start ≤ s.«end» then decide (s.start ≤ hour) && decide (hour < s.«end»)
    else decide (s.start ≤ hour) || decide (hour < s.«end»)

/-- `shouldSendNotification` (service.js:520-536); `userId` is accepted and
ignored exactly as in the source. -/
def shouldSendNotification (prefs : Option Preferences) (category priority : String)
    (userId : Option String) (hour : Nat) : Bool :=
  match prefs with
  | none => true
  | some p =>
    if (match p.categories with
        | some enabled => !enabled category
        | none => false) then false
    else if p.doNotDisturb && isDoNotDisturbTime p hour then priority == "high"
    else true

/-- The notification object assembled at service.js:194-219. -/
def mkNotification (nd : NotificationData) : Notification :=
  { title := nd.title
    body := nd.body
    category := nd.category
    priority := nd.priority
    data := nd.data
    actions := nd.actions
    image := nd.image
    userId := nd.userId
    options :=
      { body := nd.body
        dataPayload := nd.data
        dataCategory := some nd.category
        dataPriority := some nd.priority
        actions := nd.actions
        image := nd.image
        tag := nd.category ++ "_" ++ jsOr nd.userId "system"
        renotify := some (nd.priority == "high") } }

/-- `getCategoryTitle` (service.js:571-582): object lookup with the
`'Notifications'` fallback. -/
def getCategoryTitle (category : String) : String :=
  if category == "message" then "New Messages"
  else if category == "group_invite" then "Group Invitations"
  else if category == "mention" then "Mentions"
  else if category == "file_share" then "File Shares"
  else if category == "system" then "System Notifications"
  else if category == "security" then "Security Alerts"
  else "Notifications"

/-- The summary notification assembled at service.js:365-386. -/
def mkSummary (category : String) (ns : List Notification) : Notification :=
  { title := getCategoryTitle category
    body := toString ns.length ++ " new " ++ category ++ " notifications"
    category := category
    priority := "normal"
    options :=
      { body := toString ns.length ++ " new " ++ category ++ " notifications"
        dataType := some "summary"
        dataCategory := some category
        tag := category ++ "_summary" } }

/-- `sendGroupedNotification` (service.js:356-389), returning the
notifications it hands to `sendImmediateNotification`. -/
def sendGroupedNotification (category : String) (ns : List Notification) :
    List Notification :=
  if ns.length = 1 then ns else [mkSummary category ns]

/-- `groupNotifications` (service.js:336-348): a JavaScript `Map` keyed by
category, in insertion order. -/
def groupNotifications (ns : List Notification) : List (String × List Notification) :=
  ns.foldl
    (fun acc n =>
      if acc.any (fun p => p.1 = n.category) then
        acc.map (fun p => if p.1 = n.category then (p.1, p.2 ++ [n]) else p)
      else acc ++ [(n.category, [n])])
    []

/-- `processBatch` (service.js:309-329): an empty queue returns
immediately; otherwise the queue is snapshot-and-cleared, grouped by
category, and each group is dispatched.  The returned list is everything
handed to the delivery boundary. -/
def processBatch (st : ServiceState) : ServiceState × List Notification :=
  if st.batchQueue.length = 0 then (st, [])
  else
    let batch := st.batchQueue
    let st1 := { st with batchQueue := [], batchTimerSet := false }
    (st1, (groupNotifications batch).foldl
      (fun acc g => acc ++ sendGroupedNotification g.1 g.2) [])

/-- `addToBatch` (service.js:287-303): enqueue, ensure the flush timer is
pending, and flush at once when the queue reaches `BATCH_SIZE` (clearing
the timer first). -/
def addToBatch (st : ServiceState) (n : Notification) : ServiceState × List Notification :=
  let st1 := { st with batchQueue := st.batchQueue ++ [n], batchTimerSet := true }
  if BATCH_SIZE ≤ st1.batchQueue.length then
    processBatch { st1 with batchTimerSet := false }
  else
    (st1, [])

/-- `sendNotification` (service.js:175-237): preference gate, then the
immediate path for `"high"` priority or the batch path otherwise, then the
history append.  Result: (new state, notifications handed to the delivery
boundary, returned boolean).  No modelled operation throws, so the
`catch` branch (service.js:233-236) is unreachable. -/
def sendNotification (st : ServiceState) (env : Env) (nd : NotificationData) :
    ServiceState × List Notification × Bool :=
  if !(shouldSendNotification st.preferences nd.category nd.priority nd.userId env.hour) then
    (st, [], false)
  else
    let n := mkNotification nd
    if nd.priority == "high" then
      ({ st with notificationHistory := st.notificationHistory ++ [n] }, [n], true)
    else
      let r := addToBatch st n
      ({ r.1 with notificationHistory := r.1.notificationHistory ++ [n] }, r.2, true)

/-- `getNotificationHistory` (service.js:460-469): `slice(-limit)` of the
in-memory history (for `limit = 0`, `slice(-0)` is the whole list). -/
def getNotificationHistory (st : ServiceState) (limit : Nat) : List Notification :=
  if limit = 0 then st.notificationHistory
  else st.notificationHistory.drop (st.notificationHistory.length - limit)

/-- Input destructured by the service worker's `handlePushNotification`
(sw-notifications.js:101-114): a decoded push payload or a
`SHOW_NOTIFICATION` message body.  `Option` fields are those whose absence
triggers a destructuring default or the `tag || ...` fallback. -/
structure PushData where
  title : String := ""
  body : Option String := none
  category : Option String := none
  data : Payload := {}
  actions : List NotifAction := []
  image : Option String := none
  tag : Option String := none
  requireInteraction : Bool := false
  silent : Bool := false

/-- The notification as shown by `self.registration.showNotification`
(sw-notifications.js:123-143): title plus the `options` object built there.
`dataCategory` is the category merged into `options.data`
(sw-notifications.js:127-132). -/
structure ShownNotification where
  title : String
  body : Option String
  dataCategory : String
  dataPayload : Payload
  actions : List NotifAction
  image : Option String
  tag : String
  requireInteraction : Bool
  silent : Bool
  renotify : Bool

/-- `handlePushNotification` (sw-notifications.js:99-159).
`shouldShowNotification` (sw-notifications.js:341-350) always returns
`true`, so every well-formed payload is shown; the result is the shown
notification. -/
def handlePushNotification (env : Env) (pd : PushData) : ShownNotification :=
  let category := pd.category.getD "message"
  { title := pd.title
    body := pd.body
    dataCategory := category
    dataPayload := pd.data
    actions := pd.actions.take 2
    image := pd.image
    tag := if truthy pd.tag then jsStr pd.tag else category ++ "_" ++ toString env.now
    requireInteraction := pd.requireInteraction
    silent := pd.silent
    renotify := category == "security" }

/-- The `notification.data` available when a shown notification is clicked
(sw-notifications.js:167-168, 193): the payload fields plus the category
merged in by `handlePushNotification`. -/
structure ClickData where
  category : Option String := none
  groupId : Option String := none
  chatId : Option String := none
  messageId : Option String := none
  url : Option String := none

/-- The `targetUrl` computation of the service worker's
`handleNotificationClick` (sw-notifications.js:191-225); the subsequent
client focus / `openWindow` I/O consumes this string unchanged.
`targetUrl` starts at `"/"` and the `message` case leaves it there when
neither `groupId` nor `chatId` is truthy. -/
def handleNotificationClickTarget (d : ClickData) : String :=
  if truthy d.url then jsStr d.url
  else if d.category = some "message" then
    (if truthy d.groupId then "/groups/" ++ jsStr d.groupId
     else if truthy d.chatId then "/chat/" ++ jsStr d.chatId
     else "/")
  else if d.category = some "group_invite" then "/groups/" ++ jsStr d.groupId
  else if d.category = some "mention" then
    "/groups/" ++ jsStr d.groupId ++ "?message=" ++ jsStr d.messageId
  else if d.category = some "security" then "/admin/security"
  else "/notifications"

/-- Fixed environment used for the concrete executions below (a daytime
hour outside the default DND window). -/
def env0 : Env := { hour := 12, now := 0 }

/-- A plain normal-priority message request (all destructuring defaults). -/
def msgReq : NotificationData := { title := "t", body := "b" }

/-- A high-priority message request. -/
def hiReq : NotificationData := { title := "t", body := "b", priority := "high" }

/-- State of the freshly constructed service after `n` successive
`sendNotification` calls with `hiReq`. -/
def iterSend : Nat → ServiceState
  | 0 => initialState
  | n + 1 => (sendNotification (iterSend n) env0 hiReq).1

/-- State and accumulated delivered notifications after `n` successive
`sendNotification` calls with `msgReq` from the freshly constructed
service. -/
def runSends : Nat → ServiceState × List Notification
  | 0 => (initialState, [])
  | n + 1 =>
    let p := runSends n
    let r := sendNotification p.1 env0 msgReq
    (r.1, p.2 ++ r.2.1)

/-- A freshly constructed service state with the default preferences of
`loadPreferences` installed. -/
def prefState : ServiceState := { initialState with preferences := some defaultPreferences }

/-- C1 fails as stated: with no stored preferences (the constructor
state), `sendNotification` with the invalid category "bogus" returns
`true` and enqueues the request into the batching queue — the
rejection is not independent of the stored preferences. -/
theorem c1_counterexample :
    (sendNotification initialState env0
      { title := "t", body := "b", category := "bogus" }).2.2 = true ∧
    (sendNotification initialState env0
      { title := "t", body := "b", category := "bogus" }).1.batchQueue.length = 1 :=
  ⟨rfl, rfl⟩

/-- C1 amended: when the stored preferences are the ones installed by
`loadPreferences` (whose `categories` map enables exactly the six
enumerated categories), `sendNotification` with a category outside the six
returns `false`, leaves the state unchanged, and delivers nothing,
regardless of priority and of the rest of the request. -/
theorem c1_amended_reject_unknown_category
    (st : ServiceState) (env : Env) (nd : NotificationData)
    (hp : st.preferences = some defaultPreferences)
    (hm : nd.category ∉
      ["message", "group_invite", "mention", "file_share", "system", "security"]) :
    sendNotification st env nd = (st, [], false) := by
  simp only [List.mem_cons, List.mem_singleton, not_or] at hm
  obtain ⟨h1, h2, h3, h4, h5, h6⟩ := hm
  have hc : defaultCategories nd.category = false := by
    simp [defaultCategories, h1, h2, h3, h4, h5, h6]
  unfold sendNotification
  rw [hp]
  simp [shouldSendNotification, defaultPreferences, hc]

/-- Witness for the amended C1 at the concrete category "bogus". -/
theorem c1_amended_reject_unknown_category_witness :
    sendNotification prefState env0 { title := "t", body := "b", category := "bogus" } =
      (prefState, [], false) :=
  c1_amended_reject_unknown_category prefState env0
    { title := "t", body := "b", category := "bogus" } rfl (by decide)

/-- C2: from the empty queue, 9 normal-priority message sends deliver
nothing and leave 9 items queued; the 10th send flushes, delivering exactly
one notification over the whole run — the grouped summary with body
"10 new message notifications" and tag "message_summary" — and the queue is
empty afterwards. -/
theorem c2_batch_size_flush :
    (runSends 9).2 = [] ∧
    (runSends 9).1.batchQueue.length = 9 ∧
    ((runSends 10).2.map fun n => (n.body, n.options.tag)) =
      [("10 new message notifications", "message_summary")] ∧
    (runSends 10).1.batchQueue = [] :=
  ⟨rfl, rfl, rfl, rfl⟩

/-- Preferences with do-not-disturb enabled over the wraparound window
start = 22, end = 8 (the claim's scenario); no category map is stored, so
the category gate does not interfere. -/
def dndPrefs : Preferences :=
  { categories := none
    doNotDisturb := true
    doNotDisturbSchedule := some { start := 22, «end» := 8 } }

/-- C3: under do-not-disturb with the wraparound window 22..8, the
preference gate suppresses a normal-priority request at hour 23, allows a
high-priority request at hour 23, and allows any request at hour 12
regardless of priority; and the in-window test is
`start <= end ? (hour >= start && hour < end) : (hour >= start || hour < end)`. -/
theorem c3_dnd_wraparound :
    (∀ category userId,
      shouldSendNotification (some dndPrefs) category "normal" userId 23 = false) ∧
    (∀ category userId,
      shouldSendNotification (some dndPrefs) category "high" userId 23 = true) ∧
    (∀ category priority userId,
      shouldSendNotification (some dndPrefs) category priority userId 12 = true) ∧
    (∀ s e hour : Nat,
      isDoNotDisturbTime { dndPrefs with doNotDisturbSchedule := some { start := s, «end» := e } } hour =
        if s ≤ e then decide (s ≤ hour) && decide (hour < e)
        else decide (s ≤ hour) || decide (hour < e)) :=
  ⟨fun _ _ => rfl, fun _ _ => rfl, fun _ _ _ => rfl, fun _ _ _ => rfl⟩

/-- C4: at the delivery sink, the shown notification has `renotify = true`
exactly when its (defaulted) category is "security" — independently of
priority, which the sink's `renotify` computation never reads; in
particular every high-priority security notification re-alerts and no
other category does. -/
theorem c4_renotify_security_only (env : Env) (pd : PushData) :
    (handlePushNotification env pd).renotify = true ↔
      pd.category.getD "message" = "security" := by
  simp [handlePushNotification]

/-- C5 fails as stated: a `message`-category click with neither `groupId`
nor `chatId` resolves to "/" (the `targetUrl` initializer), not to
"/notifications". -/
theorem c5_counterexample :
    handleNotificationClickTarget { category := some "message" } = "/" ∧
    ("/" : String) ≠ "/notifications" :=
  ⟨rfl, by decide⟩

/-- C5 amended: the click-routing table is as claimed except that a
`message` click with neither `groupId` nor `chatId` resolves to "/", while
`system`, `file_share` and unknown categories resolve to "/notifications". -/
theorem c5_amended_click_routes (g c m u : String)
    (hg : g ≠ "") (hc : c ≠ "")
    (hu : u ∉ ["message", "group_invite", "mention", "security"]) :
    handleNotificationClickTarget { category := some "message", groupId := some g } =
      "/groups/" ++ g ∧
    handleNotificationClickTarget { category := some "message", chatId := some c } =
      "/chat/" ++ c ∧
    handleNotificationClickTarget { category := some "group_invite", groupId := some g } =
      "/groups/" ++ g ∧
    handleNotificationClickTarget
        { category := some "mention", groupId := some g, messageId := some m } =
      "/groups/" ++ g ++ "?message=" ++ m ∧
    handleNotificationClickTarget { category := some "security" } = "/admin/security" ∧
    handleNotificationClickTarget { category := some u } = "/notifications" ∧
    handleNotificationClickTarget { category := some "message" } = "/" := by
  simp only [List.mem_cons, List.mem_singleton, not_or] at hu
  obtain ⟨h1, h2, h3, h4⟩ := hu
  refine ⟨?_, ?_, ?_, ?_, ?_, ?_, ?_⟩ <;>
    simp [handleNotificationClickTarget, truthy, jsStr, hg, hc, h1, h2, h3, h4]

/-- Witness for the amended C5 at the representative payloads of the
claim (including `system` as the fall-through category). -/
theorem c5_amended_click_routes_witness :
    handleNotificationClickTarget { category := some "message", groupId := some "g1" } =
      "/groups/g1" ∧
    handleNotificationClickTarget { category := some "message", chatId := some "c1" } =
      "/chat/c1" ∧
    handleNotificationClickTarget { category := some "group_invite", groupId := some "g1" } =
      "/groups/g1" ∧
    handleNotificationClickTarget
        { category := some "mention", groupId := some "g1", messageId := some "m1" } =
      "/groups/g1?message=m1" ∧
    handleNotificationClickTarget { category := some "security" } = "/admin/security" ∧
    handleNotificationClickTarget { category := some "system" } = "/notifications" ∧
    handleNotificationClickTarget { category := some "message" } = "/" :=
  c5_amended_click_routes "g1" "c1" "m1" "system" (by decide) (by decide) (by decide)

/-- C6 fails as stated: a payload containing the url field with the empty
string is not overridden — the truthiness test `if (url)` skips it and the
category route "/notifications" is returned instead of the url verbatim. -/
theorem c6_counterexample :
    handleNotificationClickTarget { category := some "system", url := some "" } =
      "/notifications" ∧
    ("/notifications" : String) ≠ "" :=
  ⟨rfl, by decide⟩

/-- C6 amended: for every category and every payload whose `url` field is
present and non-empty, click resolution returns that url verbatim,
overriding all category-based inference. -/
theorem c6_amended_url_override (d : ClickData) (u : String)
    (hd : d.url = some u) (hu : u ≠ "") :
    handleNotificationClickTarget d = u := by
  simp [handleNotificationClickTarget, truthy, jsStr, hd, hu]

/-- Witness for the amended C6: the url "/custom" wins over the `message`
category route. -/
theorem c6_amended_url_override_witness :
    handleNotificationClickTarget
      { category := some "message", groupId := some "g1", url := some "/custom" } =
      "/custom" :=
  c6_amended_url_override
    { category := some "message", groupId := some "g1", url := some "/custom" }
    "/custom" rfl (by decide)

/-- C7 fails as stated: an empty-title request is not rejected — with the
constructor state, `sendNotification` with `title = ""` returns `true` and
enqueues the request. -/
theorem c7_counterexample :
    (sendNotification initialState env0 { title := "", body := "b" }).2.2 = true ∧
    (sendNotification initialState env0 { title := "", body := "b" }).1.batchQueue.length = 1 :=
  ⟨rfl, rfl⟩

/-- C7 amended: `sendNotification` never validates the title; for an
empty-title request its returned boolean is exactly the preference gate's
verdict (and no exception is thrown — the modelled paths are total), so an
empty title alone never causes rejection. -/
theorem c7_amended_empty_title_not_rejected
    (st : ServiceState) (env : Env) (nd : NotificationData)
    (ht : nd.title = "") :
    (sendNotification st env nd).2.2 =
      shouldSendNotification st.preferences nd.category nd.priority nd.userId env.hour := by
  unfold sendNotification
  by_cases h : shouldSendNotification st.preferences nd.category nd.priority nd.userId env.hour =
      true
  · rw [h]
    simp only [Bool.not_true, Bool.false_eq_true, if_false]
    split <;> rfl
  · rw [Bool.not_eq_true] at h
    rw [h]
    rfl

/-- Witness for the amended C7: with no stored preferences the gate allows,
so the empty-title request returns `true`. -/
theorem c7_amended_empty_title_not_rejected_witness :
    (sendNotification initialState env0 { title := "", body := "b" }).2.2 =
      shouldSendNotification initialState.preferences "message" "normal" none env0.hour :=
  c7_amended_empty_title_not_rejected initialState env0 { title := "", body := "b" } rfl

/-- A high-priority send under absent preferences: the gate defaults to
allow, the immediate path fires, and the history grows by one entry. -/
theorem sendNotification_high_no_prefs (st : ServiceState) (env : Env)
    (hp : st.preferences = none) :
    sendNotification st env hiReq =
      ({ st with notificationHistory := st.notificationHistory ++ [mkNotification hiReq] },
        [mkNotification hiReq], true) := by
  unfold sendNotification
  rw [hp]
  rfl

/-- Along the `iterSend` runs, preferences stay absent and the history
length equals the number of accepted sends. -/
theorem iterSend_spec (n : Nat) :
    (iterSend n).preferences = none ∧ (iterSend n).notificationHistory.length = n := by
  induction n with
  | zero => exact ⟨rfl, rfl⟩
  | succ k ih =>
    have h := sendNotification_high_no_prefs (iterSend k) env0 ih.1
    constructor
    · show (sendNotification (iterSend k) env0 hiReq).1.preferences = none
      rw [h]
      exact ih.1
    · show (sendNotification (iterSend k) env0 hiReq).1.notificationHistory.length = k + 1
      rw [h]
      simp [ih.2]

/-- C8 fails as stated: no fixed bound caps the in-process history — the
run of `n` accepted sends leaves `n` entries, so for every candidate bound
some sequence of `sendNotification` calls exceeds it, and no entry is ever
dropped. -/
theorem c8_counterexample :
    ¬ ∃ B : Nat, ∀ n : Nat, (iterSend n).notificationHistory.length ≤ B := by
  rintro ⟨B, hB⟩
  have h := hB (B + 1)
  rw [(iterSend_spec (B + 1)).2] at h
  omega

/-- C8 amended: the underlying history list is unbounded (each accepted
send appends one entry and none is ever removed); only the
`getNotificationHistory` view is capped — for a positive `limit` it
returns at most `limit` entries (the newest ones). -/
theorem c8_amended_history_unbounded_view_capped :
    (∀ (st : ServiceState) (limit : Nat), 0 < limit →
      (getNotificationHistory st limit).length ≤ limit) ∧
    (∀ n : Nat, (iterSend n).notificationHistory.length = n) := by
  constructor
  · intro st limit hl
    unfold getNotificationHistory
    rw [if_neg (Nat.pos_iff_ne_zero.mp hl)]
    rw [List.length_drop]
    omega
  · exact fun n => (iterSend_spec n).2

/-- Witness for the amended C8 at `limit = 50` and a 3-send run. -/
theorem c8_amended_history_unbounded_view_capped_witness :
    (0 < 50 ∧ (getNotificationHistory (iterSend 60) 50).length ≤ 50) ∧
    (iterSend 3).notificationHistory.length = 3 :=
  ⟨⟨by decide, c8_amended_history_unbounded_view_capped.1 (iterSend 60) 50 (by decide)⟩,
    c8_amended_history_unbounded_view_capped.2 3⟩

/-- C9: flushing an empty queue delivers nothing and leaves the state
unchanged, and after any flush the queue is empty, so a second consecutive
flush delivers nothing and is a no-op. -/
theorem c9_flush_idempotent (st : ServiceState) :
    (st.batchQueue = [] → processBatch st = (st, [])) ∧
    processBatch (processBatch st).1 = ((processBatch st).1, []) := by
  have key : ∀ q : ServiceState, q.batchQueue = [] → processBatch q = (q, []) := by
    intro q h
    simp [processBatch, h]
  refine ⟨key st, ?_⟩
  have hq : (processBatch st).1.batchQueue = [] := by
    by_cases h : st.batchQueue.length = 0
    · simp only [processBatch, if_pos h]
      exact List.length_eq_zero.mp h
    · simp [processBatch, h]
  exact key _ hq

/-- Witness for C9 at the freshly constructed (empty-queue) state. -/
theorem c9_flush_idempotent_witness :
    processBatch initialState = (initialState, []) ∧
    processBatch (processBatch initialState).1 = ((processBatch initialState).1, []) :=
  ⟨(c9_flush_idempotent initialState).1 rfl, (c9_flush_idempotent initialState).2⟩

/-- C10: the delivery sink truncates the actions array to its first two
elements before showing the notification, so every shown notification
carries at most 2 actions. -/
theorem c10_actions_truncated (env : Env) (pd : PushData) :
    (handlePushNotification env pd).actions = pd.actions.take 2 ∧
    (handlePushNotification env pd).actions.length ≤ 2 := by
  refine ⟨rfl, ?_⟩
  show (pd.actions.take 2).length ≤ 2
  rw [List.length_take]
  exact min_le_left _ _

end ShadowBind
